import Mathlib

/-!
Shallow embedding of `backend/main.py` of the ShowMe event-listing service
(FastAPI + SQLAlchemy), together with proofs about its authorization,
ownership, serialization and authentication logic.

Conventions of the embedding:
* SQLAlchemy nullable columns become `Option _`; non-null columns become the
  plain type.
* Python truthiness is modelled explicitly: `None` and `""` are falsy for
  optional strings, `None` and `0` are falsy for optional integers, and a
  missing list or an empty list is falsy for id lists.
* The database session is a `DB` record of entity lists; a handler is a pure
  function from its inputs and the current `DB` to `Except HTTPExn (result ×
  DB)`.  Raising `HTTPException` before `db.commit()` leaves the store
  unchanged, which the functional style gives for free.
* Nondeterministic inputs of the code (`secrets.token_hex`, `datetime.utcnow`,
  autoincrement ids, the password hash function) are passed as parameters.
* The source file stores its error detail strings with encoding artifacts
  (e.g. `nǜo` for `não`); the embedding uses the intended UTF-8 text.  Only
  equality between the model's own values is ever at stake.
-/

/-- Python truthiness of a nullable string: `None` and `""` are falsy. -/
def strTruthy : Option String → Bool
  | none => false
  | some s => !s.isEmpty

/-- Python truthiness of a nullable integer id: `None` and `0` are falsy. -/
def natTruthy : Option Nat → Bool
  | none => false
  | some n => n != 0

/-- Python `a or b` on nullable strings (used by `serialize_event`). -/
def pyOr (a b : Option String) : Option String :=
  if strTruthy a then a else b

/-- Python `str.strip()`: drop leading and trailing whitespace.  Written over
the underlying character list so that it evaluates by kernel reduction
(`String.trim` itself is defined by well-founded recursion and does not). -/
def pyStrip (s : String) : String :=
  ⟨((s.data.dropWhile Char.isWhitespace).reverse.dropWhile Char.isWhitespace).reverse⟩

/-- Python `str.lower()` (per-character case mapping). -/
def pyLower (s : String) : String :=
  ⟨s.data.map Char.toLower⟩

/-- Python `str.split(",")`, over the character list: `""` yields `[""]`,
separators at the ends yield empty pieces, as in Python. -/
def pySplitCommaAux : List Char → List Char → List String
  | [], acc => [⟨acc.reverse⟩]
  | c :: rest, acc =>
    if c = ',' then ⟨acc.reverse⟩ :: pySplitCommaAux rest []
    else pySplitCommaAux rest (c :: acc)

/-- Python `raw.split(",")`. -/
def pySplitComma (s : String) : List String :=
  pySplitCommaAux s.data []

/-- `normalize_email`: `(email or "").strip().lower()`. -/
def normalize_email (email : String) : String :=
  pyLower (pyStrip email)

/-- The allow-list comprehension used for both `ADMIN_EMAILS` and the
environment part of `FULL_ACCESS_EMAILS`:
`{email.strip().lower() for email in (raw or "").split(",") if email.strip()}`.
A `List` stands for the Python `set`; only membership is ever used. -/
def emailAllowList (raw : String) : List String :=
  ((pySplitComma raw).filter (fun e => !(pyStrip e).isEmpty)).map
    (fun e => pyLower (pyStrip e))

/-- `FULL_ACCESS_EMAILS`: the configured allow-list plus the hard-coded
`FULL_ACCESS_EMAILS.add("js.vitortoniolo@hotmail.com")`. -/
def fullAccessEmails (raw : String) : List String :=
  "js.vitortoniolo@hotmail.com" :: emailAllowList raw

/-- The process-wide configuration: the raw `ADMIN_EMAILS` and
`FULL_ACCESS_EMAILS` environment strings. -/
structure Config where
  adminRaw : String
  fullRaw : String
  deriving Repr, DecidableEq

/-- ORM `User` (columns relevant to the claims; `email` and `password_hash`
are non-null columns). -/
structure User where
  id : Nat
  email : String
  password_hash : String
  name : Option String := none
  deriving Repr, DecidableEq

/-- `User.is_admin` property:
`email = (self.email or "").strip().lower(); bool(email) and email in ADMIN_EMAILS`
(the source inlines the same normalization `normalize_email` performs). -/
def User.is_admin (cfg : Config) (u : User) : Bool :=
  let email := normalize_email u.email
  !email.isEmpty && (emailAllowList cfg.adminRaw).contains email

/-- `is_admin_user(user)`: `bool(user) and bool(getattr(user, "is_admin", False))`. -/
def is_admin_user (cfg : Config) (user : Option User) : Bool :=
  match user with
  | none => false
  | some u => u.is_admin cfg

/-- `has_full_access_user(user)`:
`email = (getattr(user, "email", "") or "").strip().lower();
bool(email) and email in FULL_ACCESS_EMAILS`. -/
def has_full_access_user (cfg : Config) (user : Option User) : Bool :=
  let email := normalize_email ((user.map User.email).getD "")
  !email.isEmpty && (fullAccessEmails cfg.fullRaw).contains email

/-- `has_global_editing_access(user)`: `is_admin_user(user) or has_full_access_user(user)`. -/
def has_global_editing_access (cfg : Config) (user : Option User) : Bool :=
  is_admin_user cfg user || has_full_access_user cfg user

/-- HTTP error raised by a handler: `HTTPException(status_code, detail)`. -/
structure HTTPExn where
  status : Nat
  detail : String
  deriving Repr, DecidableEq

/-- Decidable equality of handler results, for evaluation at concrete
inputs. -/
instance exceptDecidableEq {ε α : Type} [DecidableEq ε] [DecidableEq α] :
    DecidableEq (Except ε α) := fun a b =>
  match a, b with
  | .error e, .error e' =>
    if h : e = e' then isTrue (by rw [h])
    else isFalse (fun hc => h (by cases hc; rfl))
  | .error _, .ok _ => isFalse (fun hc => Except.noConfusion hc)
  | .ok _, .error _ => isFalse (fun hc => Except.noConfusion hc)
  | .ok x, .ok y =>
    if h : x = y then isTrue (by rw [h])
    else isFalse (fun hc => h (by cases hc; rfl))

/-- ORM `SessionToken`. -/
structure SessionToken where
  token : String
  user_id : Nat
  created_at : Nat
  last_used_at : Nat
  deriving Repr, DecidableEq

/-- ORM `Establishment` (timestamps as abstract `Nat` instants). -/
structure Establishment where
  id : Nat
  name : String
  description : Option String := none
  image_url : Option String := none
  city : Option String := none
  neighborhood : Option String := none
  street : Option String := none
  number : Option String := none
  capacity : Option Nat := none
  created_at : Nat := 0
  updated_at : Nat := 0
  owner_id : Option Nat := none
  deriving Repr, DecidableEq

/-- ORM `Genre`. -/
structure Genre where
  id : Nat
  name : String
  deriving Repr, DecidableEq

/-- ORM `Artist`. -/
structure Artist where
  id : Nat
  name : String
  description : Option String := none
  url : Option String := none
  created_at : Nat := 0
  updated_at : Nat := 0
  deriving Repr, DecidableEq

/-- ORM `Event`.  The `genres`/`artists` relationships (association tables)
are carried as the lists of linked ids, which is all `serialize_event` and the
link-update code observe.  `date` is an abstract instant and `price` an
abstract numeric payload (a float in the source; no claim computes with it). -/
structure Event where
  id : Nat
  establishment_id : Option Nat := none
  establishment_name : Option String := none
  image_url : Option String := none
  city : Option String := none
  neighborhood : Option String := none
  street : Option String := none
  number : Option String := none
  title : String
  description : Option String := none
  date : Option Nat := none
  price : Option Int := none
  is_free : Bool := false
  capacity : Option Nat := none
  url : Option String := none
  created_at : Nat := 0
  updated_at : Nat := 0
  user_id : Option Nat := none
  genres : List Nat := []
  artists : List Nat := []
  deriving Repr, DecidableEq

/-- The database session state: one list per table. -/
structure DB where
  users : List User := []
  tokens : List SessionToken := []
  establishments : List Establishment := []
  genres : List Genre := []
  artists : List Artist := []
  events : List Event := []
  deriving Repr, DecidableEq

/-- `db.query(Establishment).filter(Establishment.id == i).first()`. -/
def DB.findEstablishment (db : DB) (i : Nat) : Option Establishment :=
  db.establishments.find? (fun e => e.id == i)

/-- `db.query(Event).filter(Event.id == i).first()`. -/
def DB.findEvent (db : DB) (i : Nat) : Option Event :=
  db.events.find? (fun e => e.id == i)

/-- The `Event.establishment` relationship: the row referenced by
`establishment_id`, when any (the FK is `SET NULL`, so it never dangles;
a dangling id simply resolves to `None` here). -/
def eventEstablishment (db : DB) (e : Event) : Option Establishment :=
  e.establishment_id.bind db.findEstablishment

/-- The response view produced by `serialize_event` (the shape of `EventRead`). -/
structure EventView where
  id : Nat
  establishment_id : Option Nat
  establishment_name : Option String
  image_url : Option String
  title : String
  description : Option String
  date : Option Nat
  price : Option Int
  url : Option String
  is_free : Bool
  capacity : Option Nat
  city : Option String
  neighborhood : Option String
  street : Option String
  number : Option String
  created_at : Nat
  updated_at : Nat
  genre_ids : List Nat
  artist_ids : List Nat
  user_id : Option Nat
  deriving Repr, DecidableEq

/-- `serialize_event(e)`: read-time projection of an Event, with Python-`or`
fallback of each location field to the linked Establishment's field. -/
def serialize_event (db : DB) (e : Event) : EventView :=
  let establishment := eventEstablishment db e
  { id := e.id
    establishment_id := e.establishment_id
    establishment_name := pyOr e.establishment_name (establishment.map Establishment.name)
    image_url := e.image_url
    title := e.title
    description := e.description
    date := e.date
    price := e.price
    url := e.url
    is_free := e.is_free
    capacity := e.capacity
    city := pyOr e.city (establishment.bind Establishment.city)
    neighborhood := pyOr e.neighborhood (establishment.bind Establishment.neighborhood)
    street := pyOr e.street (establishment.bind Establishment.street)
    number := pyOr e.number (establishment.bind Establishment.number)
    created_at := e.created_at
    updated_at := e.updated_at
    genre_ids := e.genres
    artist_ids := e.artists
    user_id := e.user_id }

/-- `GET /events/{event_id}`: pure read; the returned `DB` is the incoming
one, untouched (`get_event` performs no write and no commit). -/
def get_event (event_id : Nat) (db : DB) : Except HTTPExn (EventView × DB) :=
  match db.findEvent event_id with
  | none => .error ⟨404, "Evento não encontrado"⟩
  | some event => .ok (serialize_event db event, db)

/-- `GET /events`: pagination via `offset(skip).limit(limit)`, then
`serialize_event` on each row; no write and no commit. -/
def list_events (skip limit : Nat) (db : DB) : List EventView × DB :=
  (((db.events.drop skip).take limit).map (serialize_event db), db)

/-!  Credential store.  `hash_password` is SHA-256 hex digest in the source;
the embedding abstracts the digest as a parameter `hash : String → String`
(deterministic, as in the source).  `verify_password(p, h) = hash(p) == h`.
`create_session_token` draws a fresh random token; the drawn value and the
current instant are parameters. -/

/-- `verify_password(plain_password, password_hash)`. -/
def verify_password (hash : String → String) (plain_password password_hash : String) : Bool :=
  hash plain_password == password_hash

/-- `create_session_token(user, db)`: inserts a fresh token row and commits. -/
def create_session_token (user : User) (db : DB) (tokenValue : String) (now : Nat) : DB :=
  { db with tokens := db.tokens ++ [⟨tokenValue, user.id, now, now⟩] }

/-- `POST /auth/login`: look the user up by normalized email, check the
password hash, and on success issue a brand-new session token. -/
def login (hash : String → String) (email password : String) (db : DB)
    (tokenValue : String) (now : Nat) : Except HTTPExn (String × User × DB) :=
  let em := normalize_email email
  match db.users.find? (fun u => u.email == em) with
  | none => .error ⟨401, "Credenciais inválidas"⟩
  | some user =>
    if !verify_password hash password user.password_hash then
      .error ⟨401, "Credenciais inválidas"⟩
    else
      .ok (tokenValue, user, create_session_token user db tokenValue now)

/-- `POST /auth/logout`: `credentials` is the parsed bearer header
(`HTTPBearer(auto_error=False)`), `None` when the header is absent.  Deletes
every stored token equal to the supplied one and commits. -/
def logout (credentials : Option String) (db : DB) : Except HTTPExn (String × DB) :=
  match credentials with
  | none => .error ⟨401, "Autenticação necessária"⟩
  | some tok =>
    .ok ("Logout realizado", { db with tokens := db.tokens.filter (fun st => st.token != tok) })

/-- The token-channel scan of `get_current_user`: start from the bearer
credentials (the credentials object, when present, contributes its —
possibly empty — token string), and fall through to the `X-Session-Token`
header and then the `token` query parameter whenever the value so far is
falsy. -/
def resolveToken (bearer xSessionToken tokenQuery : Option String) : Option String :=
  let tv := bearer
  let tv := if strTruthy tv then tv else xSessionToken
  let tv := if strTruthy tv then tv else tokenQuery
  tv

/-- `get_current_user`: resolve the token from the three channels, reject a
missing/unknown token with 401, and on success touch the token's
`last_used_at` (committed) and return the token's user.  A token row whose
user is missing would crash the Python with an attribute error; it is
modelled as an HTTP 500. -/
def get_current_user (bearer xSessionToken tokenQuery : Option String)
    (db : DB) (now : Nat) : Except HTTPExn (User × DB) :=
  let tokenValue := resolveToken bearer xSessionToken tokenQuery
  if strTruthy tokenValue = false then
    .error ⟨401, "Autenticação necessária"⟩
  else
    match tokenValue with
    | none => .error ⟨401, "Autenticação necessária"⟩
    | some tv =>
      match db.tokens.find? (fun st => st.token == tv) with
      | none => .error ⟨401, "Sessão inválida ou expirada"⟩
      | some session_token =>
        let db' := { db with
          tokens := db.tokens.map (fun st =>
            if st.token == tv then { st with last_used_at := now } else st) }
        match db.users.find? (fun u => u.id == session_token.user_id) with
        | none => .error ⟨500, "AttributeError"⟩
        | some user => .ok (user, db')

/-!  Catalog handlers.  Request payloads mirror the pydantic models with
`exclude_unset=True` partial-update semantics: an outer `Option` marks the
field as present in the request, and for nullable columns an inner `Option`
is the JSON value itself (`some none` = explicit `null`).  `title`/`is_free`
keep a single level: sending `null` for them would make the handler write
`None` into a column the rest of the code assumes non-null (a crash path
outside every claim). -/

/-- `EventCreate` payload (under `exclude_unset`, absent and explicit-`null`
optional fields lead to the same stored row, so one `Option` level suffices). -/
structure EventCreate where
  title : String
  description : Option String := none
  date : Option Nat := none
  establishment_id : Option Nat := none
  establishment_name : Option String := none
  image_url : Option String := none
  city : Option String := none
  neighborhood : Option String := none
  street : Option String := none
  number : Option String := none
  price : Option Int := none
  url : Option String := none
  is_free : Option Bool := none
  capacity : Option Nat := none
  genre_ids : Option (List Nat) := none
  artist_ids : Option (List Nat) := none
  deriving Repr, DecidableEq

/-- `EventUpdate` payload. -/
structure EventUpdate where
  title : Option String := none
  description : Option (Option String) := none
  date : Option (Option Nat) := none
  establishment_id : Option (Option Nat) := none
  establishment_name : Option (Option String) := none
  image_url : Option (Option String) := none
  city : Option (Option String) := none
  neighborhood : Option (Option String) := none
  street : Option (Option String) := none
  number : Option (Option String) := none
  price : Option (Option Int) := none
  url : Option (Option String) := none
  is_free : Option Bool := none
  capacity : Option (Option Nat) := none
  genre_ids : Option (Option (List Nat)) := none
  artist_ids : Option (Option (List Nat)) := none
  deriving Repr, DecidableEq

/-- The `setattr(event, key, value)` loop of `update_event` over
`data.items()` — `genre_ids`/`artist_ids` were popped from `data` before the
loop, and `user_id` is not an `EventUpdate` field, so neither is touched. -/
def applyEventUpdate (e : Event) (p : EventUpdate) : Event :=
  { e with
    title := p.title.getD e.title
    description := p.description.getD e.description
    date := p.date.getD e.date
    establishment_id := p.establishment_id.getD e.establishment_id
    establishment_name := p.establishment_name.getD e.establishment_name
    image_url := p.image_url.getD e.image_url
    city := p.city.getD e.city
    neighborhood := p.neighborhood.getD e.neighborhood
    street := p.street.getD e.street
    number := p.number.getD e.number
    price := p.price.getD e.price
    url := p.url.getD e.url
    is_free := p.is_free.getD e.is_free
    capacity := p.capacity.getD e.capacity }

/-- The establishment block shared verbatim by `create_event` and
`update_event`: when the request carries a truthy `establishment_id`
(`if establishment_id:` — `None` and `0` are skipped), the Establishment
must exist, a foreign owner without global access is rejected, and an
unclaimed one is claimed for the caller.  Returns the (possibly claimed)
row to be written back on commit. -/
def establishmentOwnershipGate (db : DB) (current_user : User)
    (can_manage_all : Bool) (establishment_id : Option Nat) :
    Except HTTPExn (Option Establishment) :=
  match establishment_id with
  | none => .ok none
  | some eid =>
    if eid == 0 then .ok none
    else
      match db.findEstablishment eid with
      | none => .error ⟨404, "Estabelecimento não encontrado"⟩
      | some est =>
        if natTruthy est.owner_id = true ∧ est.owner_id ≠ some current_user.id ∧
            can_manage_all = false then
          .error ⟨403, "Estabelecimento pertence a outro usuário"⟩
        else if est.owner_id = none then
          .ok (some { est with owner_id := some current_user.id })
        else
          .ok (some est)

/-- `db.query(Genre).filter(Genre.id.in_(ids)).all()`, projected to ids. -/
def genresMatching (db : DB) (ids : List Nat) : List Nat :=
  (db.genres.filter (fun g => ids.contains g.id)).map Genre.id

/-- `db.query(Artist).filter(Artist.id.in_(ids)).all()`, projected to ids. -/
def artistsMatching (db : DB) (ids : List Nat) : List Nat :=
  (db.artists.filter (fun a => ids.contains a.id)).map Artist.id

/-- `POST /events`: establishment gate, then insert a new Event with
`user_id = current_user.id`; `if genre_ids:` / `if artist_ids:` attach the
matching rows (an absent or empty list leaves the fresh event linkless). -/
def create_event (cfg : Config) (current_user : User) (payload : EventCreate)
    (db : DB) (newEventId : Nat) (now : Nat) : Except HTTPExn (EventView × DB) :=
  match establishmentOwnershipGate db current_user
      (has_global_editing_access cfg (some current_user)) payload.establishment_id with
  | .error err => .error err
  | .ok claimed =>
    let db_event : Event :=
      { id := newEventId
        establishment_id := payload.establishment_id
        establishment_name := payload.establishment_name
        image_url := payload.image_url
        city := payload.city
        neighborhood := payload.neighborhood
        street := payload.street
        number := payload.number
        title := payload.title
        description := payload.description
        date := payload.date
        price := payload.price
        is_free := payload.is_free.getD false
        capacity := payload.capacity
        url := payload.url
        created_at := now
        updated_at := now
        user_id := some current_user.id
        genres := match payload.genre_ids with
          | some l => if l.isEmpty then [] else genresMatching db l
          | none => []
        artists := match payload.artist_ids with
          | some l => if l.isEmpty then [] else artistsMatching db l
          | none => [] }
    let db1 := { db with
      establishments := match claimed with
        | some est => db.establishments.map (fun (s : Establishment) => if s.id == est.id then est else s)
        | none => db.establishments }
    let db2 := { db1 with events := db1.events ++ [db_event] }
    .ok (serialize_event db2 db_event, db2)

/-- The event row written back by a successful `update_event`: claim-on-write
of an unclaimed event, `setattr` of the present fields, then full link
replacement when `genre_ids`/`artist_ids` is a list (`is not None`). -/
def updatedEventRow (cu : User) (p : EventUpdate) (db : DB) (event : Event) : Event :=
  let event1 := if event.user_id = none then { event with user_id := some cu.id } else event
  let event2 := applyEventUpdate event1 p
  let event3 := match p.genre_ids.join with
    | some l => { event2 with genres := genresMatching db l }
    | none => event2
  match p.artist_ids.join with
  | some l => { event3 with artists := artistsMatching db l }
  | none => event3

/-- The store committed by a successful `update_event`: the (possibly
claimed) establishment and the updated event row written back in place. -/
def updatedEventDB (db : DB) (event_id : Nat) (claimed : Option Establishment)
    (row : Event) : DB :=
  { db with
    establishments := match claimed with
      | some est => db.establishments.map
          (fun (s : Establishment) => if s.id == est.id then est else s)
      | none => db.establishments
    events := db.events.map (fun e => if e.id == event_id then row else e) }

/-- `PUT /events/{event_id}`: ownership gate on the event, establishment gate
when a truthy `establishment_id` is supplied, then commit of the updated row
(see `updatedEventRow`/`updatedEventDB`). -/
def update_event (cfg : Config) (current_user : User) (event_id : Nat)
    (payload : EventUpdate) (db : DB) : Except HTTPExn (EventView × DB) :=
  match db.findEvent event_id with
  | none => .error ⟨404, "Evento não encontrado"⟩
  | some event =>
    if natTruthy event.user_id = true ∧ event.user_id ≠ some current_user.id ∧
        has_global_editing_access cfg (some current_user) = false then
      .error ⟨403, "Você não pode editar este evento"⟩
    else
      match establishmentOwnershipGate db current_user
          (has_global_editing_access cfg (some current_user))
          payload.establishment_id.join with
      | .error err => .error err
      | .ok claimed =>
        let row := updatedEventRow current_user payload db event
        let db1 := updatedEventDB db event_id claimed row
        .ok (serialize_event db1 row, db1)

/-- `DELETE /events/{event_id}`: same ownership gate as update, then delete
the row (ids are unique, so dropping every row with this id models
`db.delete(event)`). -/
def delete_event (cfg : Config) (current_user : User) (event_id : Nat)
    (db : DB) : Except HTTPExn DB :=
  match db.findEvent event_id with
  | none => .error ⟨404, "Evento não encontrado"⟩
  | some event =>
    if natTruthy event.user_id = true ∧ event.user_id ≠ some current_user.id ∧
        has_global_editing_access cfg (some current_user) = false then
      .error ⟨403, "Você não pode excluir este evento"⟩
    else
      .ok { db with events := db.events.filter (fun e => e.id != event_id) }

/-- `EstablishmentCreate` payload. -/
structure EstablishmentCreate where
  name : String
  description : Option String := none
  image_url : Option String := none
  city : Option String := none
  neighborhood : Option String := none
  street : Option String := none
  number : Option String := none
  capacity : Option Nat := none
  deriving Repr, DecidableEq

/-- `EstablishmentUpdate` payload (same present/value two-level convention). -/
structure EstablishmentUpdate where
  name : Option String := none
  description : Option (Option String) := none
  image_url : Option (Option String) := none
  city : Option (Option String) := none
  neighborhood : Option (Option String) := none
  street : Option (Option String) := none
  number : Option (Option String) := none
  capacity : Option (Option Nat) := none
  deriving Repr, DecidableEq

/-- The `setattr` loop of `update_establishment` (`owner_id` is not an
`EstablishmentUpdate` field, so it is never touched here). -/
def applyEstablishmentUpdate (e : Establishment) (p : EstablishmentUpdate) : Establishment :=
  { e with
    name := p.name.getD e.name
    description := p.description.getD e.description
    image_url := p.image_url.getD e.image_url
    city := p.city.getD e.city
    neighborhood := p.neighborhood.getD e.neighborhood
    street := p.street.getD e.street
    number := p.number.getD e.number
    capacity := p.capacity.getD e.capacity }

/-- The response view declared by `EstablishmentRead` (which inherits the
`EstablishmentBase` fields and adds `id`, `user_id` and the timestamps). -/
structure EstablishmentRead where
  id : Nat
  name : String
  description : Option String
  image_url : Option String
  city : Option String
  neighborhood : Option String
  street : Option String
  number : Option String
  capacity : Option Nat
  user_id : Option Nat
  created_at : Nat
  updated_at : Nat
  deriving Repr, DecidableEq

/-- Serialization of an `Establishment` ORM row through
`response_model=EstablishmentRead` (pydantic `from_attributes`): every
declared field is read off the attribute of the same name.  The ORM class
stores the owner under `owner_id` and has no `user_id` attribute, so the
declared `user_id: Optional[int] = None` falls back to its default `None`. -/
def establishment_read (e : Establishment) : EstablishmentRead :=
  { id := e.id
    name := e.name
    description := e.description
    image_url := e.image_url
    city := e.city
    neighborhood := e.neighborhood
    street := e.street
    number := e.number
    capacity := e.capacity
    user_id := none
    created_at := e.created_at
    updated_at := e.updated_at }

/-- `POST /establishments`: insert with `owner_id = current_user.id`. -/
def create_establishment (current_user : User) (payload : EstablishmentCreate)
    (db : DB) (newId now : Nat) : EstablishmentRead × DB :=
  let est : Establishment :=
    { id := newId
      name := payload.name
      description := payload.description
      image_url := payload.image_url
      city := payload.city
      neighborhood := payload.neighborhood
      street := payload.street
      number := payload.number
      capacity := payload.capacity
      created_at := now
      updated_at := now
      owner_id := some current_user.id }
  (establishment_read est, { db with establishments := db.establishments ++ [est] })

/-- `GET /establishments/{establishment_id}`: pure read. -/
def get_establishment (establishment_id : Nat) (db : DB) :
    Except HTTPExn (EstablishmentRead × DB) :=
  match db.findEstablishment establishment_id with
  | none => .error ⟨404, "Estabelecimento não encontrado"⟩
  | some est => .ok (establishment_read est, db)

/-- `GET /establishments`: pure paginated read. -/
def list_establishments (skip limit : Nat) (db : DB) : List EstablishmentRead × DB :=
  (((db.establishments.drop skip).take limit).map establishment_read, db)

/-- The establishment row written back by a successful
`update_establishment`: claim-on-write of an unclaimed establishment, then
`setattr` of the present fields. -/
def updatedEstablishmentRow (cu : User) (p : EstablishmentUpdate)
    (est : Establishment) : Establishment :=
  let est1 := if est.owner_id = none then { est with owner_id := some cu.id } else est
  applyEstablishmentUpdate est1 p

/-- The store committed by a successful `update_establishment`: the updated
row written back in place. -/
def updatedEstablishmentDB (db : DB) (i : Nat) (row : Establishment) : DB :=
  { db with
    establishments := db.establishments.map
        (fun (s : Establishment) => if s.id == i then row else s) }

/-- `PUT /establishments/{establishment_id}`: ownership gate with
claim-on-write, then `setattr` of the present fields. -/
def update_establishment (cfg : Config) (current_user : User)
    (establishment_id : Nat) (payload : EstablishmentUpdate) (db : DB) :
    Except HTTPExn (EstablishmentRead × DB) :=
  match db.findEstablishment establishment_id with
  | none => .error ⟨404, "Estabelecimento não encontrado"⟩
  | some est =>
    if natTruthy est.owner_id = true ∧ est.owner_id ≠ some current_user.id ∧
        has_global_editing_access cfg (some current_user) = false then
      .error ⟨403, "Você não pode editar este estabelecimento"⟩
    else
      let est2 := updatedEstablishmentRow current_user payload est
      let db1 := updatedEstablishmentDB db establishment_id est2
      .ok (establishment_read est2, db1)

/-- `DELETE /establishments/{establishment_id}`: same gate, then delete the
row; the `cascade="all,delete"` relationship also deletes its Events. -/
def delete_establishment (cfg : Config) (current_user : User)
    (establishment_id : Nat) (db : DB) : Except HTTPExn DB :=
  match db.findEstablishment establishment_id with
  | none => .error ⟨404, "Estabelecimento não encontrado"⟩
  | some est =>
    if natTruthy est.owner_id = true ∧ est.owner_id ≠ some current_user.id ∧
        has_global_editing_access cfg (some current_user) = false then
      .error ⟨403, "Você não pode excluir este estabelecimento"⟩
    else
      .ok { db with
        establishments := db.establishments.filter (fun s => s.id != establishment_id)
        events := db.events.filter (fun e => e.establishment_id != some establishment_id) }

/-!  Spec-side definitions, for refinement-style claims.  These two follow
the specification's words, to be compared against the code model above. -/

/-- Modelled from the spec (§4.2): `can_mutate(resource_owner_id,
current_user) = (resource_owner_id is null) OR (resource_owner_id ==
current_user.id) OR has_global_editing_access(current_user)`. -/
def can_mutate_spec (cfg : Config) (owner : Option Nat) (u : User) : Prop :=
  owner = none ∨ owner = some u.id ∨ has_global_editing_access cfg (some u) = true

instance (cfg : Config) (owner : Option Nat) (u : User) :
    Decidable (can_mutate_spec cfg owner u) := by
  unfold can_mutate_spec; infer_instance

/-- Modelled from the spec (§4.1): over the ordered credential channels,
"first non-empty value wins". -/
def firstNonEmptyToken (channels : List (Option String)) : Option String :=
  (channels.filterMap id).find? (fun s => !s.isEmpty)

/-!  Sample fixtures used by witnesses and counterexamples. -/

/-- Sample user #1. -/
def aliceU : User := { id := 1, email := "alice@x.com", password_hash := "hpw" }

/-- Sample user #2. -/
def bobU : User := { id := 2, email := "bob@x.com", password_hash := "hpw2" }

/-- Sample configuration: empty allow-list environment strings. -/
def cfg0 : Config := { adminRaw := "", fullRaw := "" }

/-- Sample configuration naming `bob@x.com` an admin. -/
def cfgBobAdmin : Config := { adminRaw := " Bob@X.com ,", fullRaw := "" }

/-- Establishment owned by Bob. -/
def estClaimed : Establishment :=
  { id := 5, name := "Venue", city := some "Porto Alegre", street := some "Rua A",
    owner_id := some 2 }

/-- Unclaimed establishment. -/
def estUnclaimed : Establishment := { id := 6, name := "Open Venue" }

/-- Event owned by Alice, linked to establishment 5, with an own
`establishment_name` but no own `city`. -/
def evOwned : Event :=
  { id := 10, title := "Show", user_id := some 1, establishment_id := some 5,
    establishment_name := some "Override", genres := [3] }

/-- Unclaimed event. -/
def evUnclaimed : Event := { id := 11, title := "Open Show" }

/-- Update payload replacing the genre links with ids `[4, 99]` (99 unknown). -/
def pGenreReplace : EventUpdate := { genre_ids := some (some [4, 99]) }

/-- Update payload that only points the event at establishment 5. -/
def pForeignEst : EventUpdate := { establishment_id := some (some 5) }

/-- Create payload carrying the falsy establishment id `0`. -/
def pcEstZero : EventCreate := { title := "t", establishment_id := some 0 }

/-- Sample database. -/
def dbSample : DB :=
  { users := [aliceU, bobU]
    tokens := [⟨"tokA", 1, 0, 0⟩]
    establishments := [estClaimed, estUnclaimed]
    genres := [⟨3, "Rock"⟩, ⟨4, "Jazz"⟩]
    artists := [{ id := 7, name := "Band" }]
    events := [evOwned, evUnclaimed] }

/-!  Helper lemmas shared by several claims. -/

-- Helper lemmas about the email normalization.

theorem pyLower_eq_empty_iff (s : String) : pyLower s = "" ↔ s = "" := by
  unfold pyLower
  constructor
  · intro h
    have hdata : s.data.map Char.toLower = ("" : String).data :=
      congrArg String.data h
    have hnil : s.data = [] := by
      simpa using hdata
    cases s
    simp_all
  · rintro rfl; rfl

theorem mem_emailAllowList_not_empty {raw s : String}
    (h : s ∈ emailAllowList raw) : s.isEmpty = false := by
  rcases List.mem_map.mp h with ⟨e, he, rfl⟩
  rcases List.mem_filter.mp he with ⟨-, hstrip⟩
  rw [Bool.eq_false_iff]
  intro habs
  rw [String.isEmpty_iff] at habs
  rw [(pyLower_eq_empty_iff (pyStrip e)).mp habs] at hstrip
  exact absurd hstrip (by decide)

theorem mem_fullAccessEmails_not_empty {raw s : String}
    (h : s ∈ fullAccessEmails raw) : s.isEmpty = false := by
  rcases List.mem_cons.mp h with h | h
  · subst h; decide
  · exact mem_emailAllowList_not_empty h

/-- The Python ownership test `if owner and owner != user.id and not
can_manage_all:` is, for a well-formed owner (never the id `0`), exactly the
negation of the spec's `can_mutate`. -/
theorem ownership_guard_iff (cfg : Config) (o : Option Nat) (cu : User)
    (hwf : o ≠ some 0) :
    (natTruthy o = true ∧ o ≠ some cu.id ∧
        has_global_editing_access cfg (some cu) = false) ↔
      ¬can_mutate_spec cfg o cu := by
  unfold can_mutate_spec
  cases o with
  | none => simp [natTruthy]
  | some a =>
    have ha : a ≠ 0 := fun h => hwf (by simp [h])
    simp [natTruthy, ha, not_or, Bool.not_eq_true]

/-- Membership in `genresMatching db l`: exactly the ids of existing genres
that appear in `l`. -/
theorem mem_genresMatching (db : DB) (l : List Nat) (g : Nat) :
    g ∈ genresMatching db l ↔ ∃ gr ∈ db.genres, gr.id = g ∧ g ∈ l := by
  unfold genresMatching
  simp only [List.mem_map, List.mem_filter]
  constructor
  · rintro ⟨gr, ⟨hmem, hcont⟩, rfl⟩
    exact ⟨gr, hmem, rfl, by simpa using hcont⟩
  · rintro ⟨gr, hmem, rfl, hl⟩
    exact ⟨gr, ⟨hmem, by simpa using hl⟩, rfl⟩

/-- Membership in `artistsMatching db l`. -/
theorem mem_artistsMatching (db : DB) (l : List Nat) (a : Nat) :
    a ∈ artistsMatching db l ↔ ∃ ar ∈ db.artists, ar.id = a ∧ a ∈ l := by
  unfold artistsMatching
  simp only [List.mem_map, List.mem_filter]
  constructor
  · rintro ⟨ar, ⟨hmem, hcont⟩, rfl⟩
    exact ⟨ar, hmem, rfl, by simpa using hcont⟩
  · rintro ⟨ar, hmem, rfl, hl⟩
    exact ⟨ar, ⟨hmem, by simpa using hl⟩, rfl⟩

/-- The imperative three-channel scan of `get_current_user` agrees with the
spec's "first non-empty value wins" whenever it yields a truthy value, and
yields a falsy value exactly when no channel carries a non-empty token. -/
theorem resolveToken_eq_firstNonEmpty (b x q : Option String) :
    firstNonEmptyToken [b, x, q] =
      (if strTruthy (resolveToken b x q) = true then resolveToken b x q else none) := by
  cases b <;> cases x <;> cases q <;>
    simp only [firstNonEmptyToken, resolveToken, strTruthy, List.filterMap] <;>
    repeat' split <;> simp_all [List.find?, strTruthy]

/-- A found event row is a member of the table and carries the looked-up id. -/
theorem findEvent_mem_and_id {db : DB} {eid : Nat} {event : Event}
    (h : db.findEvent eid = some event) : event ∈ db.events ∧ event.id = eid := by
  unfold DB.findEvent at h
  exact ⟨List.mem_of_find?_eq_some h, by simpa using List.find?_some h⟩

/-- A found establishment row is a member of the table and carries the id. -/
theorem findEstablishment_mem_and_id {db : DB} {i : Nat} {est : Establishment}
    (h : db.findEstablishment i = some est) :
    est ∈ db.establishments ∧ est.id = i := by
  unfold DB.findEstablishment at h
  exact ⟨List.mem_of_find?_eq_some h, by simpa using List.find?_some h⟩

/-- In the store committed by `update_event`, every event row carrying the
updated id is the written-back row. -/
theorem updatedEventDB_events_at_id {db : DB} {eid : Nat}
    {claimed : Option Establishment} {row : Event} :
    ∀ e' ∈ (updatedEventDB db eid claimed row).events, e'.id = eid → e' = row := by
  intro e' hmem heid
  simp only [updatedEventDB, List.mem_map] at hmem
  obtain ⟨e0, he0, rfl⟩ := hmem
  by_cases hb : (e0.id == eid) = true
  · rw [if_pos hb]
  · rw [if_neg hb] at heid
    exact absurd heid (by simpa using hb)

/-- The written-back row's genres when `genre_ids` is a present list. -/
theorem updatedEventRow_genres_some {cu : User} {p : EventUpdate} {db : DB}
    {event : Event} {l : List Nat} (h : p.genre_ids = some (some l)) :
    (updatedEventRow cu p db event).genres = genresMatching db l := by
  unfold updatedEventRow
  cases hart : p.artist_ids.join <;> simp [h, hart, Option.join]

/-- The written-back row's genres when `genre_ids` is absent. -/
theorem updatedEventRow_genres_none {cu : User} {p : EventUpdate} {db : DB}
    {event : Event} (h : p.genre_ids = none) :
    (updatedEventRow cu p db event).genres = event.genres := by
  unfold updatedEventRow applyEventUpdate
  cases hart : p.artist_ids.join <;>
    by_cases huid : event.user_id = none <;>
      simp [h, hart, huid, Option.join]

/-- The written-back row's artists when `artist_ids` is a present list. -/
theorem updatedEventRow_artists_some {cu : User} {p : EventUpdate} {db : DB}
    {event : Event} {l : List Nat} (h : p.artist_ids = some (some l)) :
    (updatedEventRow cu p db event).artists = artistsMatching db l := by
  unfold updatedEventRow
  cases hg : p.genre_ids.join <;> simp [h, hg, Option.join]

/-- The written-back row's artists when `artist_ids` is absent. -/
theorem updatedEventRow_artists_none {cu : User} {p : EventUpdate} {db : DB}
    {event : Event} (h : p.artist_ids = none) :
    (updatedEventRow cu p db event).artists = event.artists := by
  unfold updatedEventRow applyEventUpdate
  cases hg : p.genre_ids.join <;>
    by_cases huid : event.user_id = none <;>
      simp [h, hg, huid, Option.join]

/-- The written-back row's owner: claimed for the caller when unclaimed,
otherwise untouched. -/
theorem updatedEventRow_user_id (cu : User) (p : EventUpdate) (db : DB)
    (event : Event) :
    (updatedEventRow cu p db event).user_id =
      (if event.user_id = none then some cu.id else event.user_id) := by
  unfold updatedEventRow applyEventUpdate
  cases hg : p.genre_ids.join <;> cases hart : p.artist_ids.join <;>
    by_cases huid : event.user_id = none <;> simp [hg, hart, huid]

/-- Anatomy of a successful `update_event`: the event was found, the
ownership guard did not fire, the establishment gate passed, and the result
is the written-back row. -/
theorem update_event_ok {cfg : Config} {cu : User} {eid : Nat} {p : EventUpdate}
    {db : DB} {v : EventView} {db' : DB}
    (hok : update_event cfg cu eid p db = .ok (v, db')) :
    ∃ event claimed,
      db.findEvent eid = some event ∧
      ¬(natTruthy event.user_id = true ∧ event.user_id ≠ some cu.id ∧
          has_global_editing_access cfg (some cu) = false) ∧
      establishmentOwnershipGate db cu (has_global_editing_access cfg (some cu))
          p.establishment_id.join = .ok claimed ∧
      db' = updatedEventDB db eid claimed (updatedEventRow cu p db event) ∧
      v = serialize_event db' (updatedEventRow cu p db event) := by
  unfold update_event at hok
  split at hok
  · cases hok
  · rename_i event hfind
    by_cases hguard : (natTruthy event.user_id = true ∧ event.user_id ≠ some cu.id ∧
        has_global_editing_access cfg (some cu) = false)
    · rw [if_pos hguard] at hok
      cases hok
    · rw [if_neg hguard] at hok
      split at hok
      · cases hok
      · rename_i claimed hgate
        simp only [Except.ok.injEq, Prod.mk.injEq] at hok
        obtain ⟨hv, hdb⟩ := hok
        exact ⟨event, claimed, hfind, hguard, hgate, hdb.symm, by rw [← hv, ← hdb]⟩

/-- Converse of `update_event_ok`: if the event is found, the guard does not
fire and the gate passes, `update_event` commits the written-back row. -/
theorem update_event_isOk {cfg : Config} {cu : User} {eid : Nat} {p : EventUpdate}
    {db : DB} {event : Event} {claimed : Option Establishment}
    (hfind : db.findEvent eid = some event)
    (hguard : ¬(natTruthy event.user_id = true ∧ event.user_id ≠ some cu.id ∧
        has_global_editing_access cfg (some cu) = false))
    (hgate : establishmentOwnershipGate db cu (has_global_editing_access cfg (some cu))
        p.establishment_id.join = .ok claimed) :
    update_event cfg cu eid p db =
      .ok (serialize_event (updatedEventDB db eid claimed (updatedEventRow cu p db event))
             (updatedEventRow cu p db event),
           updatedEventDB db eid claimed (updatedEventRow cu p db event)) := by
  simp only [update_event, hfind, if_neg hguard, hgate]

/-- C6: `has_global_editing_access` holds exactly when the user's normalized
email belongs to the admin allow-list or to the full-access allow-list. -/
theorem C6_global_access_iff_allowlisted (cfg : Config) (u : User) :
    has_global_editing_access cfg (some u) = true ↔
      (normalize_email u.email ∈ emailAllowList cfg.adminRaw ∨
        normalize_email u.email ∈ fullAccessEmails cfg.fullRaw) := by
  unfold has_global_editing_access is_admin_user has_full_access_user User.is_admin
    normalize_email
  simp only [Option.map_some', Option.getD_some, Bool.or_eq_true, Bool.and_eq_true,
    Bool.not_eq_true', List.contains, List.elem_eq_mem, decide_eq_true_eq]
  constructor
  · rintro (⟨-, h⟩ | ⟨-, h⟩)
    · exact Or.inl h
    · exact Or.inr h
  · rintro (h | h)
    · exact Or.inl ⟨mem_emailAllowList_not_empty h, h⟩
    · exact Or.inr ⟨mem_fullAccessEmails_not_empty h, h⟩

/-- C7: a login whose normalized email matches no user, and a login whose
matched user has a different stored hash, fail with the one identical
`401` error (no distinguishing information); a matching email+hash pair
yields a fresh token appended to the store, deleting no existing token. -/
theorem C7_login_behavior (hash : String → String) (email password tokenValue : String)
    (now : Nat) (db : DB) :
    (db.users.find? (fun u => u.email == normalize_email email) = none →
      login hash email password db tokenValue now = .error ⟨401, "Credenciais inválidas"⟩) ∧
    (∀ u, db.users.find? (fun u' => u'.email == normalize_email email) = some u →
      hash password ≠ u.password_hash →
      login hash email password db tokenValue now = .error ⟨401, "Credenciais inválidas"⟩) ∧
    (∀ u, db.users.find? (fun u' => u'.email == normalize_email email) = some u →
      hash password = u.password_hash →
      login hash email password db tokenValue now =
        .ok (tokenValue, u, { db with tokens := db.tokens ++ [⟨tokenValue, u.id, now, now⟩] }) ∧
      ∀ t ∈ db.tokens,
        t ∈ ({ db with tokens := db.tokens ++ [⟨tokenValue, u.id, now, now⟩] } : DB).tokens) := by
  refine ⟨?_, ?_, ?_⟩
  · intro h
    simp [login, h]
  · intro u hfind hne
    simp [login, hfind, verify_password, hne]
  · intro u hfind heq
    refine ⟨?_, ?_⟩
    · simp [login, hfind, verify_password, heq, create_session_token]
    · intro t ht
      simp only [List.mem_append]
      exact Or.inl ht

/-- Witness for C7: concrete successful login against `dbSample` (with the
identity function standing for the deterministic hash). -/
theorem C7_login_behavior_witness :
    login (fun p => p) " Alice@x.com" "hpw" dbSample "newtok" 9 =
      .ok ("newtok", aliceU,
        { dbSample with tokens := dbSample.tokens ++ [⟨"newtok", 1, 9, 9⟩] }) :=
  (((C7_login_behavior (fun p => p) " Alice@x.com" "hpw" "newtok" 9 dbSample).2.2
      aliceU (by decide) (by decide)).1)

/-- C8: the token used by `get_current_user` is the first non-empty value of
(bearer header, `X-Session-Token` header, `token` query parameter); no
non-empty value or an unknown token is a 401, and a known token's
`last_used_at` is set to the current instant on success. -/
theorem C8_token_precedence (b x q : Option String) (db : DB) (now : Nat) :
    (firstNonEmptyToken [b, x, q] =
      (if strTruthy (resolveToken b x q) = true then resolveToken b x q else none)) ∧
    (firstNonEmptyToken [b, x, q] = none →
      get_current_user b x q db now = .error ⟨401, "Autenticação necessária"⟩) ∧
    (∀ t, firstNonEmptyToken [b, x, q] = some t →
      (db.tokens.find? (fun st => st.token == t) = none →
        get_current_user b x q db now = .error ⟨401, "Sessão inválida ou expirada"⟩) ∧
      (∀ st, db.tokens.find? (fun st' => st'.token == t) = some st →
        ∀ u, db.users.find? (fun u' => u'.id == st.user_id) = some u →
          get_current_user b x q db now =
            .ok (u, { db with tokens := db.tokens.map (fun st' =>
              if st'.token == t then { st' with last_used_at := now } else st') }) ∧
          ∀ st' ∈ db.tokens.map (fun st' =>
              if st'.token == t then { st' with last_used_at := now } else st'),
            st'.token = t → st'.last_used_at = now)) := by
  have hfe := resolveToken_eq_firstNonEmpty b x q
  refine ⟨hfe, ?_, ?_⟩
  · intro h
    rw [h] at hfe
    by_cases hs : strTruthy (resolveToken b x q) = true
    · rw [if_pos hs] at hfe
      rw [← hfe] at hs
      simp [strTruthy] at hs
    · have hs' : strTruthy (resolveToken b x q) = false := by
        simpa using hs
      simp [get_current_user, hs']
  · intro t ht
    rw [ht] at hfe
    have hpair : strTruthy (resolveToken b x q) = true ∧ resolveToken b x q = some t := by
      by_cases hb : strTruthy (resolveToken b x q) = true
      · rw [if_pos hb] at hfe
        exact ⟨hb, hfe.symm⟩
      · rw [if_neg hb] at hfe
        cases hfe
    obtain ⟨hs1, hs2⟩ := hpair
    rw [hs2] at hs1
    refine ⟨?_, ?_⟩
    · intro hnone
      simp [get_current_user, hs2, hs1, hnone]
    · intro st hst u hu
      refine ⟨?_, ?_⟩
      · simp [get_current_user, hs2, hs1, hst, hu]
      · intro st' hmem heq
        rcases List.mem_map.mp hmem with ⟨st0, hst0, rfl⟩
        by_cases hb : st0.token == t
        · simp [hb]
        · rw [if_neg (by simpa using hb)] at heq ⊢
          exact absurd heq (by simpa using hb)

/-- Witness for C8: the empty bearer value is skipped and the
`X-Session-Token` header wins; the matching stored token has its
`last_used_at` bumped to the request instant. -/
theorem C8_token_precedence_witness :
    get_current_user (some "") (some "tokA") (some "zzz") dbSample 7 =
      .ok (aliceU, { dbSample with tokens := [⟨"tokA", 1, 0, 7⟩] }) :=
  (((C8_token_precedence (some "") (some "tokA") (some "zzz") dbSample 7).2.2
      "tokA" (by decide)).2 ⟨"tokA", 1, 0, 0⟩ (by decide) aliceU (by decide)).1

/-- C9: logout with no bearer credential is a 401; with a credential it
deletes exactly the matching tokens and succeeds, and when the token is
already absent it succeeds leaving the store untouched (idempotent). -/
theorem C9_logout_behavior (db : DB) (t : String) :
    logout none db = .error ⟨401, "Autenticação necessária"⟩ ∧
    logout (some t) db =
      .ok ("Logout realizado",
        { db with tokens := db.tokens.filter (fun st => st.token != t) }) ∧
    ((∀ st ∈ db.tokens, st.token ≠ t) →
      logout (some t) db = .ok ("Logout realizado", db)) := by
  refine ⟨rfl, rfl, ?_⟩
  intro h
  have hfilter : db.tokens.filter (fun st => st.token != t) = db.tokens := by
    rw [List.filter_eq_self]
    intro a ha
    simpa using h a ha
  simp [logout, hfilter]

/-- Witness for C9: deleting a token absent from `dbSample` succeeds and
leaves the store unchanged. -/
theorem C9_logout_behavior_witness :
    logout (some "zzz") dbSample = .ok ("Logout realizado", dbSample) :=
  (C9_logout_behavior dbSample "zzz").2.2 (by decide)

/-- C10: every Establishment read-endpoint response carries `user_id = None`
regardless of the stored `owner_id` — the read schema's `user_id` field has
no counterpart attribute on the ORM row, so its default is always used. -/
theorem C10_establishment_read_hides_owner (db : DB) (i skip limit : Nat) :
    (∀ r db', get_establishment i db = .ok (r, db') → r.user_id = none) ∧
    (∀ r ∈ (list_establishments skip limit db).1, r.user_id = none) := by
  constructor
  · intro r db' h
    unfold get_establishment at h
    cases hf : db.findEstablishment i with
    | none => rw [hf] at h; cases h
    | some est =>
      rw [hf] at h
      simp only [Except.ok.injEq, Prod.mk.injEq] at h
      rw [← h.1]
      rfl
  · intro r hr
    unfold list_establishments at hr
    simp only [List.mem_map] at hr
    obtain ⟨est, -, rfl⟩ := hr
    rfl

/-- Witness for C10: establishment 5 of `dbSample` is owned by user 2, yet
its read view exposes `user_id = None`. -/
theorem C10_establishment_read_hides_owner_witness :
    (establishment_read estClaimed).user_id = none ∧ estClaimed.owner_id = some 2 :=
  ⟨(C10_establishment_read_hides_owner dbSample 5 0 50).1
      (establishment_read estClaimed) dbSample rfl, rfl⟩

/-- C5: on an Event update, a present `genre_ids`/`artist_ids` list fully
replaces the link set with exactly the existing rows whose ids appear in the
list (unknown ids silently dropped, the empty list clearing all links), and
an absent field leaves the links of the stored event untouched. -/
theorem C5_link_full_replacement (cfg : Config) (cu : User) (eid : Nat)
    (p : EventUpdate) (db : DB) (v : EventView) (db' : DB)
    (hok : update_event cfg cu eid p db = .ok (v, db')) :
    (∀ l, p.genre_ids = some (some l) →
      ∀ e' ∈ db'.events, e'.id = eid →
        e'.genres = genresMatching db l ∧
        (∀ g, g ∈ e'.genres ↔ ∃ gr ∈ db.genres, gr.id = g ∧ g ∈ l) ∧
        (l = [] → e'.genres = [])) ∧
    (p.genre_ids = none →
      ∀ e' ∈ db'.events, e'.id = eid →
        ∃ e ∈ db.events, e.id = eid ∧ e'.genres = e.genres) ∧
    (∀ l, p.artist_ids = some (some l) →
      ∀ e' ∈ db'.events, e'.id = eid →
        e'.artists = artistsMatching db l ∧
        (∀ a, a ∈ e'.artists ↔ ∃ ar ∈ db.artists, ar.id = a ∧ a ∈ l) ∧
        (l = [] → e'.artists = [])) ∧
    (p.artist_ids = none →
      ∀ e' ∈ db'.events, e'.id = eid →
        ∃ e ∈ db.events, e.id = eid ∧ e'.artists = e.artists) := by
  obtain ⟨event, claimed, hfind, -, -, hdb, -⟩ := update_event_ok hok
  subst hdb
  obtain ⟨hmem, hid⟩ := findEvent_mem_and_id hfind
  refine ⟨?_, ?_, ?_, ?_⟩
  · intro l hpg e' hmem' heid
    have hrow := updatedEventDB_events_at_id e' hmem' heid
    subst hrow
    rw [updatedEventRow_genres_some hpg]
    refine ⟨rfl, mem_genresMatching db l, ?_⟩
    rintro rfl
    simp [genresMatching]
  · intro hpg e' hmem' heid
    have hrow := updatedEventDB_events_at_id e' hmem' heid
    subst hrow
    exact ⟨event, hmem, hid, updatedEventRow_genres_none hpg⟩
  · intro l hpa e' hmem' heid
    have hrow := updatedEventDB_events_at_id e' hmem' heid
    subst hrow
    rw [updatedEventRow_artists_some hpa]
    refine ⟨rfl, mem_artistsMatching db l, ?_⟩
    rintro rfl
    simp [artistsMatching]
  · intro hpa e' hmem' heid
    have hrow := updatedEventDB_events_at_id e' hmem' heid
    subst hrow
    exact ⟨event, hmem, hid, updatedEventRow_artists_none hpa⟩

/-- Witness for C5: replacing the links of event 10 with `[4, 99]` keeps only
the existing genre 4 and drops the unknown id 99. -/
theorem C5_link_full_replacement_witness :
    (updatedEventRow aliceU pGenreReplace dbSample evOwned).genres =
        genresMatching dbSample [4, 99] ∧
      genresMatching dbSample [4, 99] = [4] :=
  ⟨((C5_link_full_replacement cfg0 aliceU 10 pGenreReplace dbSample _ _ rfl).1
      [4, 99] rfl (updatedEventRow aliceU pGenreReplace dbSample evOwned)
      (by decide) rfl).1, by decide⟩

/-- C2: on every Event read the view's location fields are the event's own
field when non-empty, else the linked establishment's corresponding field,
else `None`; and the projection is a pure read — the store is returned
untouched. -/
theorem C2_location_fallback (db : DB) (e : Event) (skip limit : Nat) :
    ((strTruthy e.establishment_name = true →
        (serialize_event db e).establishment_name = e.establishment_name) ∧
      (strTruthy e.city = true → (serialize_event db e).city = e.city) ∧
      (strTruthy e.neighborhood = true →
        (serialize_event db e).neighborhood = e.neighborhood) ∧
      (strTruthy e.street = true → (serialize_event db e).street = e.street) ∧
      (strTruthy e.number = true → (serialize_event db e).number = e.number)) ∧
    (∀ est, eventEstablishment db e = some est →
      (strTruthy e.establishment_name = false →
        (serialize_event db e).establishment_name = some est.name) ∧
      (strTruthy e.city = false → (serialize_event db e).city = est.city) ∧
      (strTruthy e.neighborhood = false →
        (serialize_event db e).neighborhood = est.neighborhood) ∧
      (strTruthy e.street = false → (serialize_event db e).street = est.street) ∧
      (strTruthy e.number = false → (serialize_event db e).number = est.number)) ∧
    (eventEstablishment db e = none →
      (strTruthy e.establishment_name = false →
        (serialize_event db e).establishment_name = none) ∧
      (strTruthy e.city = false → (serialize_event db e).city = none) ∧
      (strTruthy e.neighborhood = false →
        (serialize_event db e).neighborhood = none) ∧
      (strTruthy e.street = false → (serialize_event db e).street = none) ∧
      (strTruthy e.number = false → (serialize_event db e).number = none)) ∧
    (∀ v db', get_event e.id db = .ok (v, db') → db' = db) ∧
    list_events skip limit db =
      (((db.events.drop skip).take limit).map (serialize_event db), db) := by
  refine ⟨⟨?_, ?_, ?_, ?_, ?_⟩, ?_, ?_, ?_, rfl⟩
  · intro h; simp [serialize_event, pyOr, h]
  · intro h; simp [serialize_event, pyOr, h]
  · intro h; simp [serialize_event, pyOr, h]
  · intro h; simp [serialize_event, pyOr, h]
  · intro h; simp [serialize_event, pyOr, h]
  · intro est hest
    refine ⟨?_, ?_, ?_, ?_, ?_⟩ <;> intro h <;> simp [serialize_event, pyOr, h, hest]
  · intro hnone
    refine ⟨?_, ?_, ?_, ?_, ?_⟩ <;> intro h <;> simp [serialize_event, pyOr, h, hnone]
  · intro v db' h
    unfold get_event at h
    cases hf : db.findEvent e.id with
    | none => rw [hf] at h; cases h
    | some ev =>
      rw [hf] at h
      simp only [Except.ok.injEq, Prod.mk.injEq] at h
      exact h.2.symm

/-- Witness for C2: event 10's view keeps its own non-empty
`establishment_name` and inherits the missing `city` from establishment 5. -/
theorem C2_location_fallback_witness :
    (serialize_event dbSample evOwned).establishment_name = some "Override" ∧
    (serialize_event dbSample evOwned).city = some "Porto Alegre" := by
  constructor
  · have h := (C2_location_fallback dbSample evOwned 0 50).1.1 (by decide)
    rw [h]; rfl
  · have h := ((C2_location_fallback dbSample evOwned 0 50).2.1 estClaimed rfl).2.1
      (by decide)
    rw [h]; rfl

/-- The written-back establishment row's owner: claimed for the caller when
unclaimed, otherwise untouched. -/
theorem updatedEstablishmentRow_owner_id (cu : User) (p : EstablishmentUpdate)
    (est : Establishment) :
    (updatedEstablishmentRow cu p est).owner_id =
      (if est.owner_id = none then some cu.id else est.owner_id) := by
  unfold updatedEstablishmentRow applyEstablishmentUpdate
  by_cases h : est.owner_id = none <;> simp [h]

/-- After writing `row` back at id `i`, every row carrying id `i` is `row`. -/
theorem replaced_establishments_at_id {db : DB} {i : Nat}
    {row : Establishment} :
    ∀ s' ∈ (updatedEstablishmentDB db i row).establishments,
      s'.id = i → s' = row := by
  intro s' hmem hid
  simp only [updatedEstablishmentDB, List.mem_map] at hmem
  obtain ⟨s0, hs0, rfl⟩ := hmem
  by_cases hb : (s0.id == i) = true
  · rw [if_pos hb]
  · rw [if_neg hb] at hid
    exact absurd hid (by simpa using hb)

/-- Anatomy of a successful `update_establishment`. -/
theorem update_establishment_ok {cfg : Config} {cu : User} {i : Nat}
    {p : EstablishmentUpdate} {db : DB} {v : EstablishmentRead} {db' : DB}
    (hok : update_establishment cfg cu i p db = .ok (v, db')) :
    ∃ est, db.findEstablishment i = some est ∧
      ¬(natTruthy est.owner_id = true ∧ est.owner_id ≠ some cu.id ∧
          has_global_editing_access cfg (some cu) = false) ∧
      db' = updatedEstablishmentDB db i (updatedEstablishmentRow cu p est) ∧
      v = establishment_read (updatedEstablishmentRow cu p est) := by
  unfold update_establishment at hok
  split at hok
  · cases hok
  · rename_i est hfind
    by_cases hguard : (natTruthy est.owner_id = true ∧ est.owner_id ≠ some cu.id ∧
        has_global_editing_access cfg (some cu) = false)
    · rw [if_pos hguard] at hok
      cases hok
    · rw [if_neg hguard] at hok
      simp only [Except.ok.injEq, Prod.mk.injEq] at hok
      obtain ⟨hv, hdb⟩ := hok
      exact ⟨est, hfind, hguard, hdb.symm, hv.symm⟩

/-- C3: an unclaimed Event/Establishment is claimed by the first successful
updater (and creation records the creator as owner); once the owner is set,
updates never change it, and an update by a different (well-formed) user
without global access is rejected with 403. -/
theorem C3_claim_on_write (cfg : Config) (cu : User) (db : DB) :
    (∀ eid p v db' event, db.findEvent eid = some event →
      update_event cfg cu eid p db = .ok (v, db') →
      (event.user_id = none →
        ∀ e' ∈ db'.events, e'.id = eid → e'.user_id = some cu.id) ∧
      (∀ u0, event.user_id = some u0 →
        ∀ e' ∈ db'.events, e'.id = eid → e'.user_id = some u0)) ∧
    (∀ eid p event u0, db.findEvent eid = some event →
      event.user_id = some u0 → u0 ≠ 0 → cu.id ≠ u0 →
      has_global_editing_access cfg (some cu) = false →
      update_event cfg cu eid p db =
        .error ⟨403, "Você não pode editar este evento"⟩) ∧
    (∀ i p v db' est, db.findEstablishment i = some est →
      update_establishment cfg cu i p db = .ok (v, db') →
      (est.owner_id = none →
        ∀ s' ∈ db'.establishments, s'.id = i → s'.owner_id = some cu.id) ∧
      (∀ u0, est.owner_id = some u0 →
        ∀ s' ∈ db'.establishments, s'.id = i → s'.owner_id = some u0)) ∧
    (∀ i p est u0, db.findEstablishment i = some est →
      est.owner_id = some u0 → u0 ≠ 0 → cu.id ≠ u0 →
      has_global_editing_access cfg (some cu) = false →
      update_establishment cfg cu i p db =
        .error ⟨403, "Você não pode editar este estabelecimento"⟩) ∧
    (∀ p newId now, ∃ est,
      (create_establishment cu p db newId now).2.establishments =
        db.establishments ++ [est] ∧ est.owner_id = some cu.id) := by
  refine ⟨?_, ?_, ?_, ?_, ?_⟩
  · intro eid p v db' event hfind hok
    obtain ⟨event', claimed, hfind', -, -, hdb, -⟩ := update_event_ok hok
    rw [hfind] at hfind'
    injection hfind' with heq
    subst heq
    subst hdb
    constructor
    · intro hnone e' hmem heid
      have hrow := updatedEventDB_events_at_id e' hmem heid
      subst hrow
      rw [updatedEventRow_user_id, if_pos hnone]
    · intro u0 hu0 e' hmem heid
      have hrow := updatedEventDB_events_at_id e' hmem heid
      subst hrow
      rw [updatedEventRow_user_id, if_neg (by simp [hu0])]
      exact hu0
  · intro eid p event u0 hfind hu0 hne0 hneq hglobal
    have hguard : natTruthy event.user_id = true ∧ event.user_id ≠ some cu.id ∧
        has_global_editing_access cfg (some cu) = false := by
      refine ⟨by simp [hu0, natTruthy, hne0], ?_, hglobal⟩
      rw [hu0]
      intro hc
      exact hneq (Option.some.inj hc).symm
    simp only [update_event, hfind, if_pos hguard]
  · intro i p v db' est hfind hok
    obtain ⟨est', hfind', -, hdb, -⟩ := update_establishment_ok hok
    rw [hfind] at hfind'
    injection hfind' with heq
    subst heq
    subst hdb
    constructor
    · intro hnone s' hmem hid
      have hrow := replaced_establishments_at_id s' hmem hid
      subst hrow
      rw [updatedEstablishmentRow_owner_id, if_pos hnone]
    · intro u0 hu0 s' hmem hid
      have hrow := replaced_establishments_at_id s' hmem hid
      subst hrow
      rw [updatedEstablishmentRow_owner_id, if_neg (by simp [hu0])]
      exact hu0
  · intro i p est u0 hfind hu0 hne0 hneq hglobal
    have hguard : natTruthy est.owner_id = true ∧ est.owner_id ≠ some cu.id ∧
        has_global_editing_access cfg (some cu) = false := by
      refine ⟨by simp [hu0, natTruthy, hne0], ?_, hglobal⟩
      rw [hu0]
      intro hc
      exact hneq (Option.some.inj hc).symm
    simp only [update_establishment, hfind, if_pos hguard]
  · intro p newId now
    exact ⟨_, rfl, rfl⟩

/-- Witness for C3: Bob's successful update of the unclaimed event 11 stores
him as its owner. -/
theorem C3_claim_on_write_witness :
    (updatedEventRow bobU {} dbSample evUnclaimed).user_id = some 2 :=
  ((C3_claim_on_write cfg0 bobU dbSample).1 11 {} _ _ evUnclaimed rfl rfl).1
    rfl (updatedEventRow bobU {} dbSample evUnclaimed) (by decide) rfl

/-- The establishment gate rejects a truthy id matching no row with 404. -/
theorem gate_notFound {db : DB} {cu : User} {g : Bool} {eid : Nat}
    (hne : eid ≠ 0) (hnf : db.findEstablishment eid = none) :
    establishmentOwnershipGate db cu g (some eid) =
      .error ⟨404, "Estabelecimento não encontrado"⟩ := by
  simp only [establishmentOwnershipGate]
  rw [if_neg (by simpa using hne)]
  simp only [hnf]

/-- The establishment gate rejects a foreign-owned row with 403 when the
caller lacks global access. -/
theorem gate_foreign {db : DB} {cu : User} {g : Bool} {eid : Nat}
    {est : Establishment} {o : Nat}
    (hne : eid ≠ 0) (hf : db.findEstablishment eid = some est)
    (ho : est.owner_id = some o) (hone : o ≠ 0) (honeq : o ≠ cu.id)
    (hg : g = false) :
    establishmentOwnershipGate db cu g (some eid) =
      .error ⟨403, "Estabelecimento pertence a outro usuário"⟩ := by
  have hneq' : est.owner_id ≠ some cu.id := by
    rw [ho]
    intro hc
    exact honeq (Option.some.inj hc)
  simp only [establishmentOwnershipGate]
  rw [if_neg (by simpa using hne)]
  simp only [hf]
  rw [if_pos ⟨by simp [ho, natTruthy, hone], hneq', hg⟩]

/-- The establishment gate claims an unclaimed row for the caller. -/
theorem gate_claims {db : DB} {cu : User} {g : Bool} {eid : Nat}
    {est : Establishment}
    (hne : eid ≠ 0) (hf : db.findEstablishment eid = some est)
    (ho : est.owner_id = none) :
    establishmentOwnershipGate db cu g (some eid) =
      .ok (some { est with owner_id := some cu.id }) := by
  simp only [establishmentOwnershipGate]
  rw [if_neg (by simpa using hne)]
  simp only [hf]
  rw [if_neg (by simp [natTruthy, ho])]
  rw [if_pos ho]

/-- The establishment gate passes untouched when the supplied id is falsy
(absent, `null` or `0`). -/
theorem gate_falsy {db : DB} {cu : User} {g : Bool} {eid : Option Nat}
    (h : natTruthy eid = false) :
    establishmentOwnershipGate db cu g eid = .ok none := by
  cases eid with
  | none => rfl
  | some v =>
    simp only [natTruthy] at h
    simp only [establishmentOwnershipGate]
    rw [if_pos (by simpa using h)]

/-- C1 (amended): for update/delete of an Event or Establishment the
resource-ownership decision is exactly the spec's `can_mutate` (owner null,
owner = caller, or global access; owners are real user ids, never `0`):
when it fails the request is rejected with 403, and when it holds the
operation succeeds — except that an Event update supplying a truthy
`establishment_id` is additionally gated on the referenced Establishment
(the carve-out the counterexample forces). -/
theorem C1_mutation_permission (cfg : Config) (cu : User) (db : DB) :
    (∀ eid p event, db.findEvent eid = some event → event.user_id ≠ some 0 →
      (¬can_mutate_spec cfg event.user_id cu →
        update_event cfg cu eid p db =
          .error ⟨403, "Você não pode editar este evento"⟩) ∧
      (can_mutate_spec cfg event.user_id cu →
        natTruthy p.establishment_id.join = false →
        (update_event cfg cu eid p db).isOk = true)) ∧
    (∀ eid event, db.findEvent eid = some event → event.user_id ≠ some 0 →
      (¬can_mutate_spec cfg event.user_id cu →
        delete_event cfg cu eid db =
          .error ⟨403, "Você não pode excluir este evento"⟩) ∧
      (can_mutate_spec cfg event.user_id cu →
        (delete_event cfg cu eid db).isOk = true)) ∧
    (∀ i p est, db.findEstablishment i = some est → est.owner_id ≠ some 0 →
      (¬can_mutate_spec cfg est.owner_id cu →
        update_establishment cfg cu i p db =
          .error ⟨403, "Você não pode editar este estabelecimento"⟩) ∧
      (can_mutate_spec cfg est.owner_id cu →
        (update_establishment cfg cu i p db).isOk = true)) ∧
    (∀ i est, db.findEstablishment i = some est → est.owner_id ≠ some 0 →
      (¬can_mutate_spec cfg est.owner_id cu →
        delete_establishment cfg cu i db =
          .error ⟨403, "Você não pode excluir este estabelecimento"⟩) ∧
      (can_mutate_spec cfg est.owner_id cu →
        (delete_establishment cfg cu i db).isOk = true)) := by
  refine ⟨?_, ?_, ?_, ?_⟩
  · intro eid p event hfind hwf
    constructor
    · intro hncm
      have hguard := (ownership_guard_iff cfg event.user_id cu hwf).mpr hncm
      simp only [update_event, hfind]
      rw [if_pos hguard]
    · intro hcm hjoin
      have hgneg : ¬(natTruthy event.user_id = true ∧ event.user_id ≠ some cu.id ∧
          has_global_editing_access cfg (some cu) = false) :=
        fun hg => (ownership_guard_iff cfg event.user_id cu hwf).mp hg hcm
      rw [update_event_isOk hfind hgneg (gate_falsy hjoin)]
      rfl
  · intro eid event hfind hwf
    constructor
    · intro hncm
      have hguard := (ownership_guard_iff cfg event.user_id cu hwf).mpr hncm
      simp only [delete_event, hfind]
      rw [if_pos hguard]
    · intro hcm
      have hgneg : ¬(natTruthy event.user_id = true ∧ event.user_id ≠ some cu.id ∧
          has_global_editing_access cfg (some cu) = false) :=
        fun hg => (ownership_guard_iff cfg event.user_id cu hwf).mp hg hcm
      simp only [delete_event, hfind]
      rw [if_neg hgneg]
      rfl
  · intro i p est hfind hwf
    constructor
    · intro hncm
      have hguard := (ownership_guard_iff cfg est.owner_id cu hwf).mpr hncm
      simp only [update_establishment, hfind]
      rw [if_pos hguard]
    · intro hcm
      have hgneg : ¬(natTruthy est.owner_id = true ∧ est.owner_id ≠ some cu.id ∧
          has_global_editing_access cfg (some cu) = false) :=
        fun hg => (ownership_guard_iff cfg est.owner_id cu hwf).mp hg hcm
      simp only [update_establishment, hfind]
      rw [if_neg hgneg]
      rfl
  · intro i est hfind hwf
    constructor
    · intro hncm
      have hguard := (ownership_guard_iff cfg est.owner_id cu hwf).mpr hncm
      simp only [delete_establishment, hfind]
      rw [if_pos hguard]
    · intro hcm
      have hgneg : ¬(natTruthy est.owner_id = true ∧ est.owner_id ≠ some cu.id ∧
          has_global_editing_access cfg (some cu) = false) :=
        fun hg => (ownership_guard_iff cfg est.owner_id cu hwf).mp hg hcm
      simp only [delete_establishment, hfind]
      rw [if_neg hgneg]
      rfl

/-- Counterexample to C1 as frozen: Alice owns event 10, so the claimed
permission predicate holds, yet her update carrying `establishment_id = 5`
(an establishment owned by Bob) is rejected with 403. -/
theorem C1_counterexample :
    dbSample.findEvent 10 = some evOwned ∧
    evOwned.user_id = some aliceU.id ∧
    can_mutate_spec cfg0 evOwned.user_id aliceU ∧
    update_event cfg0 aliceU 10 pForeignEst dbSample =
      .error ⟨403, "Estabelecimento pertence a outro usuário"⟩ := by
  refine ⟨rfl, rfl, Or.inr (Or.inl rfl), by decide⟩

/-- Witness for the amended C1: Alice may delete her own event 10 while Bob,
who neither owns it nor has global access, gets the 403. -/
theorem C1_mutation_permission_witness :
    (delete_event cfg0 aliceU 10 dbSample).isOk = true ∧
    delete_event cfg0 bobU 10 dbSample =
      .error ⟨403, "Você não pode excluir este evento"⟩ :=
  ⟨((C1_mutation_permission cfg0 aliceU dbSample).2.1 10 evOwned rfl (by decide)).2
      (Or.inr (Or.inl rfl)),
   ((C1_mutation_permission cfg0 bobU dbSample).2.1 10 evOwned rfl (by decide)).1
      (by decide)⟩

/-- C4 (amended): on create-Event, a *nonzero* supplied `establishment_id`
must name an existing Establishment (404 otherwise); a (nonzero) foreign
owner without global access is a 403; an unclaimed Establishment is claimed
for the caller; and every successful create stores the caller as the new
Event's `user_id`.  A supplied `establishment_id` of `0` is treated as
absent by the `if establishment_id:` truthiness test (the counterexample). -/
theorem C4_create_event (cfg : Config) (cu : User) (p : EventCreate) (db : DB)
    (newEventId now : Nat) :
    (∀ eid, p.establishment_id = some eid → eid ≠ 0 →
      db.findEstablishment eid = none →
      create_event cfg cu p db newEventId now =
        .error ⟨404, "Estabelecimento não encontrado"⟩) ∧
    (∀ eid est o, p.establishment_id = some eid → eid ≠ 0 →
      db.findEstablishment eid = some est →
      est.owner_id = some o → o ≠ 0 → o ≠ cu.id →
      has_global_editing_access cfg (some cu) = false →
      create_event cfg cu p db newEventId now =
        .error ⟨403, "Estabelecimento pertence a outro usuário"⟩) ∧
    (∀ eid est v db', p.establishment_id = some eid → eid ≠ 0 →
      db.findEstablishment eid = some est → est.owner_id = none →
      create_event cfg cu p db newEventId now = .ok (v, db') →
      ∀ s' ∈ db'.establishments, s'.id = eid → s'.owner_id = some cu.id) ∧
    (∀ v db', create_event cfg cu p db newEventId now = .ok (v, db') →
      ∃ ev, db'.events = db.events ++ [ev] ∧ ev.user_id = some cu.id) := by
  refine ⟨?_, ?_, ?_, ?_⟩
  · intro eid hp hne hnf
    simp only [create_event, hp, gate_notFound hne hnf]
  · intro eid est o hp hne hf ho hone honeq hglobal
    simp only [create_event, hp, gate_foreign hne hf ho hone honeq hglobal]
  · intro eid est v db' hp hne hf ho hok
    obtain ⟨-, hestid⟩ := findEstablishment_mem_and_id hf
    simp only [create_event, hp, gate_claims hne hf ho] at hok
    simp only [Except.ok.injEq, Prod.mk.injEq] at hok
    obtain ⟨-, hdb⟩ := hok
    subst hdb
    intro s' hmem hsid
    simp only [List.mem_map] at hmem
    obtain ⟨s0, hs0, rfl⟩ := hmem
    by_cases hb : (s0.id == est.id) = true
    · rw [if_pos hb]
    · rw [if_neg hb] at hsid
      rw [hestid] at hb
      exact absurd hsid (by simpa using hb)
  · intro v db' hok
    cases hgate : establishmentOwnershipGate db cu
        (has_global_editing_access cfg (some cu)) p.establishment_id with
    | error err =>
      simp only [create_event, hgate] at hok
      cases hok
    | ok claimed =>
      simp only [create_event, hgate] at hok
      simp only [Except.ok.injEq, Prod.mk.injEq] at hok
      obtain ⟨-, hdb⟩ := hok
      subst hdb
      exact ⟨_, rfl, rfl⟩

/-- Counterexample to C4 as frozen: `establishment_id = 0` is supplied and no
Establishment with id 0 exists, yet the create succeeds instead of failing
with `NotFound`. -/
theorem C4_counterexample :
    dbSample.findEstablishment 0 = none ∧
    (create_event cfg0 aliceU pcEstZero dbSample 99 0).isOk = true := by
  refine ⟨rfl, by decide⟩

/-- Witness for the amended C4: a nonzero unknown id is a 404, and creating
an event against the unclaimed establishment 6 claims it for Alice. -/
theorem C4_create_event_witness :
    create_event cfg0 aliceU { title := "t", establishment_id := some 42 }
        dbSample 99 0 = .error ⟨404, "Estabelecimento não encontrado"⟩ ∧
    ({ estUnclaimed with owner_id := some 1 } : Establishment).owner_id = some 1 := by
  constructor
  · exact (C4_create_event cfg0 aliceU { title := "t", establishment_id := some 42 }
      dbSample 99 0).1 42 rfl (by decide) rfl
  · exact (C4_create_event cfg0 aliceU { title := "t", establishment_id := some 6 }
      dbSample 99 0).2.2.1 6 estUnclaimed _ _ rfl (by decide) rfl rfl rfl
      { estUnclaimed with owner_id := some 1 } (by decide) rfl
